import Mathlib

/-!
Verification development for the food-management-system repository: a campus
canteen inventory and feedback tracker with a React single-page client and a
Django backend.  The client code (src/unnamed/part_001 and
src/cfms/frontend/cfms_frontend/src/App.tsx) is embedded shallowly below:
pure computations become Lean functions over the component state, event
handlers become explicit state-transition functions parameterised by the
observable outcome of their single `fetch` call, and JavaScript strings are
handled through their character data.  Backend operations that are only
declared or called from the files present (the analytics aggregator and the
feedback-creation endpoint) are modelled from the specification and marked as
such in their doc comments.
-/

/-! JavaScript string primitives, modelled over the character list of a
string.  `Char.toLower`-style position-based `String` functions from core do
not reduce well in the kernel, so the ASCII operations the client uses are
written out structurally. -/

/-- ASCII lower-casing of one character, as `String.prototype.toLowerCase`
acts on the ASCII range used by the app's category and name strings. -/
def lowerChar (c : Char) : Char :=
  if 'A' ≤ c ∧ c ≤ 'Z' then Char.ofNat (c.toNat + 32) else c

/-- JavaScript `s.toLowerCase()` on ASCII data. -/
def jsToLower (s : String) : String := ⟨s.data.map lowerChar⟩

/-- Whether `q` occurs as a contiguous run at the front of `l` or anywhere
further right: the recursion behind `String.prototype.includes`. -/
def includesAux (q : List Char) : List Char → Bool
  | [] => q.isEmpty
  | c :: rest => q.isPrefixOf (c :: rest) || includesAux q rest

/-- JavaScript `s.includes(q)`: `q` is a contiguous substring of `s`. -/
def jsIncludes (s q : String) : Bool := includesAux q.data s.data

/-- The whitespace characters `String.prototype.trim` strips (the ASCII ones
that can occur in the app's text inputs). -/
def jsWhitespace (c : Char) : Bool := c = ' ' || c = '\t' || c = '\n' || c = '\r'

/-- JavaScript `s.trim()`: leading and trailing whitespace removed. -/
def jsTrim (s : String) : String :=
  ⟨((s.data.dropWhile jsWhitespace).reverse.dropWhile jsWhitespace).reverse⟩

/-! A stable comparison sort.  `Array.prototype.sort` with a consistent
comparator is specified (ECMA-262 §23.1.3.30) to produce a stable,
comparator-sorted permutation of the array; insertion sort below realises
exactly that contract and is structurally recursive, so concrete calls
evaluate in the kernel. -/

/-- Insert `x` into `l`, placing it before the first element `y` with
`le x y` (the comparator allows `x` ahead of `y`). -/
def insertBy {α : Type} (le : α → α → Bool) (x : α) : List α → List α
  | [] => [x]
  | y :: ys => if le x y then x :: y :: ys else y :: insertBy le x ys

/-- Stable insertion sort by the comparator `le`. -/
def sortBy {α : Type} (le : α → α → Bool) : List α → List α
  | [] => []
  | x :: xs => insertBy le x (sortBy le xs)

/-! The kitchen-inventory client: the second component of
src/unnamed/part_001 (its lines 369-608), which owns client-side filtering
and the transport-failure handling the spec describes. -/

namespace Inv

/-- A food item as the inventory client types it (src/unnamed/part_001
lines 372-378): `created_at` is the ISO timestamp string the API returns. -/
structure FoodItem where
  id : Int
  name : String
  category : String
  quantity : Int
  created_at : String
deriving DecidableEq

/-- The component state of the inventory `App` (src/unnamed/part_001 lines
384-393), one field per `useState` hook, with the source's initial values as
defaults. -/
structure AppState where
  items : List FoodItem := []
  name : String := ""
  category : String := ""
  quantity : String := "1"
  searchTerm : String := ""
  activeCategory : String := "All"
  loading : Bool := true
  submitting : Bool := false
  error : String := ""
  lastUpdated : String := ""
deriving DecidableEq

/-- `filteredItems` (src/unnamed/part_001 lines 464-474): the trimmed,
lower-cased search term must occur in the item's lower-cased name or
lower-cased category (an empty query matches everything), and the category
dropdown must be `"All"` or equal the item's category exactly. -/
def filteredItems (items : List FoodItem) (searchTerm activeCategory : String) :
    List FoodItem :=
  let query := jsToLower (jsTrim searchTerm)
  items.filter fun item =>
    let matchesCategory := activeCategory == "All" || item.category == activeCategory
    let matchesSearch := query.length == 0
      || jsIncludes (jsToLower item.name) query
      || jsIncludes (jsToLower item.category) query
    matchesCategory && matchesSearch

/-- The fixed message shown when `fetch` rejects with a `TypeError`
(src/unnamed/part_001 lines 408 and 450). -/
def backendUnreachableMsg : String :=
  "Cannot reach backend API. Start Django server on http://localhost:8000."

/-- What the single `fetch` of `loadItems` (src/unnamed/part_001 lines
395-415) can be observed to do.  `networkFailure` is `fetch` rejecting with a
`TypeError`; `httpError` is `response.ok` false (the handler throws its own
`Error` before reading the body); `parseFailure` is `response.json()`
throwing a `SyntaxError` (whose platform message the catch displays);
`success` carries the parsed body's optional `items` field. -/
inductive LoadOutcome
  | networkFailure
  | httpError
  | parseFailure (msg : String)
  | success (itemsField : Option (List FoodItem))

/-- `loadItems` (src/unnamed/part_001 lines 395-415) as a state transition:
the result pairs the new component state with the number of HTTP requests the
handler issued (it performs exactly one `fetch` and never retries). -/
def loadItems (s : AppState) (outcome : LoadOutcome) (now : String) :
    AppState × Nat :=
  let s0 := { s with loading := true, error := "" }
  let s1 :=
    match outcome with
    | .networkFailure => { s0 with error := backendUnreachableMsg }
    | .httpError => { s0 with error := "Unable to load food items." }
    | .parseFailure msg => { s0 with error := msg }
    | .success itemsField =>
        { s0 with items := itemsField.getD [], lastUpdated := now }
  ({ s1 with loading := false }, 1)

/-- Outcomes of the single `fetch` of `handleSubmit` (src/unnamed/part_001
lines 421-457).  The handler parses the body before checking `response.ok`,
so a malformed body is a `parseFailure` even on an error status; `httpError`
carries the parsed body's optional `error` field. -/
inductive SubmitOutcome
  | networkFailure
  | parseFailure (msg : String)
  | httpError (serverError : Option String)
  | success (item : FoodItem)

/-- `handleSubmit` (src/unnamed/part_001 lines 421-457) as a state
transition, paired with the number of HTTP requests issued (exactly one). -/
def handleSubmit (s : AppState) (outcome : SubmitOutcome) (now : String) :
    AppState × Nat :=
  let s0 := { s with submitting := true, error := "" }
  let s1 :=
    match outcome with
    | .networkFailure => { s0 with error := backendUnreachableMsg }
    | .parseFailure msg => { s0 with error := msg }
    | .httpError serverError =>
        { s0 with error := serverError.getD "Unable to create item." }
    | .success item =>
        { s0 with items := item :: s.items, lastUpdated := now,
                  name := "", category := "", quantity := "1" }
  ({ s1 with submitting := false }, 1)

/-- The search acceptance predicate as the amended claim states it: the item
passes when the trimmed, lower-cased query is empty or occurs as a substring
of the lower-cased name or of the lower-cased category. -/
def searchMatches (searchTerm : String) (item : FoodItem) : Bool :=
  let query := jsToLower (jsTrim searchTerm)
  query.length == 0
    || jsIncludes (jsToLower item.name) query
    || jsIncludes (jsToLower item.category) query

/-- A concrete stored item used to separate name-only matching from the
code's name-or-category matching. -/
def riceLunchItem : FoodItem :=
  { id := 1, name := "Rice", category := "lunch", quantity := 5,
    created_at := "2024-01-01T12:00:00Z" }

end Inv

/-! The campus-canteen client: the second component of
src/cfms/frontend/cfms_frontend/src/App.tsx (its lines 519-1077), the version
with ratings, filters, analytics and exports. -/

namespace Cfms

/-- A food item as the CFMS client types it (App.tsx lines 522-529). -/
structure FoodItem where
  id : Int
  name : String
  category : String
  quantity : Int
  image_url : String
  created_at : String
deriving DecidableEq

/-- A feedback row as the CFMS client types it (App.tsx lines 531-539). -/
structure FeedbackItem where
  id : Int
  student_name : String
  food_item_id : Option Int
  food_item_name : String
  rating : ℚ
  message : String
  created_at : String
deriving DecidableEq

/-- One `top_rated` entry of the analytics payload (App.tsx lines 541-545). -/
structure AnalyticsItem where
  food_name : String
  avg_rating : ℚ
  count : Int
deriving DecidableEq

/-- The analytics payload (App.tsx lines 547-550): `rating_distribution` is a
JSON object, modelled as its key-value pairs. -/
structure AnalyticsData where
  top_rated : List AnalyticsItem
  rating_distribution : List (String × Int)
deriving DecidableEq

/-- A JSON value, as `JSON.parse` can produce one. -/
inductive Json
  | null
  | bool (b : Bool)
  | num (q : ℚ)
  | str (s : String)
  | arr (elems : List Json)
  | obj (members : List (String × Json))

/-- `readJsonSafely` (App.tsx lines 577-585).  `parse` stands for the
platform primitive `JSON.parse`, which returns a value or throws a
`SyntaxError` (the `Except.error` case); the `try`/`catch` of the source maps
that error to `null`, and an empty body short-circuits to `null` before
parsing.  As a total Lean function it throws nothing. -/
def readJsonSafely (parse : String → Except String Json) (text : String) :
    Option Json :=
  if text == "" then none
  else
    match parse text with
    | .ok v => some v
    | .error _ => none

/-- The component state of the CFMS `App` (App.tsx lines 606-636), one field
per `useState` hook with the source's initial values as defaults.  `role` is
typed `UserRole | null` in the source, but the annotation is erased at
runtime and the value is whatever string the login guard admitted, so it is
modelled as an optional string.  `imageFile` is the selected `File` or
`null`, modelled by an optional file name. -/
structure CfmsState where
  items : List FoodItem := []
  feedbacks : List FeedbackItem := []
  analytics : AnalyticsData := { top_rated := [], rating_distribution := [] }
  name : String := ""
  category : String := "morning"
  quantity : String := "1"
  imageFile : Option String := none
  feedbackMessage : String := ""
  feedbackRating : String := "5"
  feedbackFoodId : String := ""
  filterSearch : String := ""
  filterCategory : String := ""
  filterFrom : String := ""
  filterTo : String := ""
  loading : Bool := true
  submitting : Bool := false
  feedbackSubmitting : Bool := false
  error : String := ""
  feedbackStatus : String := ""
  lastUpdated : String := ""
  role : Option String := none
  username : String := ""
  password : String := ""
  currentUser : String := ""
  loginError : String := ""
  loginLoading : Bool := false
deriving DecidableEq

/-- The state the app starts in: every `useState` initial value. -/
def initialState : CfmsState := {}

/-- The fields of the parsed login response body that `handleLogin` reads
(`data.role`, `data.username`, `data.error`); each is absent when the JSON
object lacks the key or holds `null` there. -/
structure LoginData where
  role : Option String
  username : Option String
  error : Option String
deriving DecidableEq

/-- The observable outcome of the single `fetch` of `handleLogin` (App.tsx
lines 697-726): a settled HTTP response with its status and the body as
`readJsonSafely` delivered it (`none` for an empty or malformed body), or a
rejection/thrown `Error` carrying a message. -/
inductive LoginOutcome
  | response (ok : Bool) (status : Nat) (body : Option LoginData)
  | failure (msg : String)
deriving DecidableEq

/-- `handleLogin` (App.tsx lines 697-726) as a state transition.  On a
non-ok response the thrown message is the body's `error` field when the
parsed body carries one, else the 404-specific or generic fallback; an ok
response whose body is missing or whose `role` is neither `"student"` nor
`"admin"` throws `Invalid login response from backend.`; only an admitted
role reaches `setRole`, `setCurrentUser` and the password reset. -/
def handleLogin (s : CfmsState) (o : LoginOutcome) : CfmsState :=
  let s0 := { s with loginError := "", loginLoading := true }
  let s1 :=
    match o with
    | .failure msg => { s0 with loginError := msg }
    | .response ok status body =>
      if !ok then
        let fallback :=
          if status == 404 then
            "Login endpoint not found. Restart backend and verify latest code is running."
          else s!"Login failed (HTTP {status})."
        { s0 with loginError := (body.bind LoginData.error).getD fallback }
      else
        match body.bind LoginData.role with
        | some r =>
          if r == "student" || r == "admin" then
            { s0 with role := some r,
                      currentUser := (body.bind LoginData.username).getD (jsTrim s.username),
                      password := "" }
          else { s0 with loginError := "Invalid login response from backend." }
        | none => { s0 with loginError := "Invalid login response from backend." }
  { s1 with loginLoading := false }

/-- `handleLogout` (App.tsx lines 728-733), paired with the list of HTTP
requests it issues: it calls no `fetch` at all, so that list is empty. -/
def handleLogout (s : CfmsState) : CfmsState × List String :=
  ({ s with role := none, currentUser := "", loginError := "", feedbackStatus := "" }, [])

/-- JavaScript `Number(s)` on the decimal-integer strings the rating select
and the food-item select produce (`'1'`..`'5'` and stringified ids): the
trimmed text read as an integer.  (On other strings `Number` yields floats or
`NaN`, which none of these inputs can produce.) -/
def jsNumber (s : String) : Int := ((jsTrim s).toInt?).getD 0

/-- The request body `handleFeedbackSubmit` sends (App.tsx lines 778-782). -/
structure FeedbackPayload where
  message : String
  rating : Int
  food_item_id : Option Int
deriving DecidableEq

/-- The body of the POST in `handleFeedbackSubmit` (App.tsx lines 769-795)
as a function of the component state: `message` is the textarea value,
`rating` is `Number(feedbackRating)`, and `food_item_id` is `null` exactly
when `feedbackFoodId` is the empty string (the only falsy string). -/
def feedbackPayload (s : CfmsState) : FeedbackPayload :=
  { message := s.feedbackMessage,
    rating := jsNumber s.feedbackRating,
    food_item_id :=
      if s.feedbackFoodId == "" then none else some (jsNumber s.feedbackFoodId) }

/-- `sortedHistory` (App.tsx lines 807-810):
`[...items].sort((a, b) => new Date(b.created_at).getTime() - new Date(a.created_at).getTime())`.
`getTime` stands for `s ↦ new Date(s).getTime()` on the timestamp strings the
API returns (parseable dates, so no `NaN`).  The comparator puts `a` ahead of
`b` exactly when `getTime b ≤ getTime a`, and `Array.prototype.sort` with a
consistent comparator yields a stable sorted permutation, realised by
`sortBy`. -/
def sortedHistory (getTime : String → Int) (items : List FoodItem) : List FoodItem :=
  sortBy (fun a b => decide (getTime b.created_at ≤ getTime a.created_at)) items

/-- The three menu sections of the student view. -/
structure TodayMenus where
  morning : List FoodItem
  lunch : List FoodItem
  dinner : List FoodItem
deriving DecidableEq

/-- `todayMenus` (App.tsx lines 800-805): the student view buckets the loaded
items into the morning, lunch and dinner menus by
`item.category.toLowerCase() === 'morning' / 'lunch' / 'dinner'` — a
case-insensitive comparison, unlike the exact match of the inventory
client's category dropdown. -/
def todayMenus (items : List FoodItem) : TodayMenus :=
  { morning := items.filter fun item => jsToLower item.category == "morning",
    lunch := items.filter fun item => jsToLower item.category == "lunch",
    dinner := items.filter fun item => jsToLower item.category == "dinner" }

/-- A concrete item stored with the mixed-case category `"Lunch"`. -/
def lunchCasedItem : FoodItem :=
  { id := 7, name := "Dal", category := "Lunch", quantity := 4,
    image_url := "", created_at := "2024-01-02T10:00:00Z" }

end Cfms

/-! The backend operations the claims reach.  The Django application that
implements them is not among the source files (only the React clients and the
deployment files are), so the definitions below are modelled from the
specification, as their doc comments state. -/

namespace Backend

/-- Modelled from the spec: a stored `FoodItem` record (§3) of the Record
Store, whose Django implementation is absent from src/. -/
structure FoodItem where
  id : Int
  name : String
  category : String
  quantity : Int
deriving DecidableEq

/-- Modelled from the spec: a stored `FeedbackEntry` (§3) of the Record
Store, whose Django implementation is absent from src/.  `food_name` is the
referenced food item's name (`none` for general feedback); the creation
timestamp plays no part in the claims below and is omitted. -/
structure FeedbackEntry where
  student_name : String
  food_name : Option String
  rating : Int
  message : String
deriving DecidableEq

/-- Modelled from the spec: the error taxonomy of §7 for the backend
operations absent from src/ (`ValidationError` names the offending field,
`NotFound` the absent entity). -/
inductive ApiError
  | validationError (field : String)
  | authError
  | forbidden
  | notFound (what : String)
deriving DecidableEq

/-- Modelled from the spec: `createFeedback(message, rating, foodItemId?)`
(§4.5) of the Django backend, absent from src/.  It validates message length
≥ 3 and rating ∈ [1,5] (else `ValidationError`), requires a given
`foodItemId` to reference an existing item (else `NotFound`), attributes the
entry to the session user, and returns the feedback table with the new entry
appended; on any error the table is left as it was. -/
def createFeedback (storedItems : List FoodItem)
    (storedFeedback : List FeedbackEntry) (sessionUser : String)
    (message : String) (rating : Int) (foodItemId : Option Int) :
    Except ApiError (List FeedbackEntry) :=
  if message.length < 3 then .error (.validationError "message")
  else if rating < 1 || 5 < rating then .error (.validationError "rating")
  else
    match foodItemId with
    | none =>
        .ok (storedFeedback ++ [⟨sessionUser, none, rating, message⟩])
    | some fid =>
        match storedItems.find? (fun it => it.id == fid) with
        | some it =>
            .ok (storedFeedback ++ [⟨sessionUser, some it.name, rating, message⟩])
        | none => .error (.notFound "food item")

/-- One `topRated` group of the analytics result (§4.3): a food name, the
arithmetic mean of its ratings as an exact rational, and the entry count. -/
structure TopRatedGroup where
  foodName : String
  avgRating : ℚ
  count : Nat
deriving DecidableEq

/-- The analytics result (§4.3): the top-rated groups in order, and the count
of feedback entries per rating value 1 through 5 as explicit key-value
pairs. -/
structure Analytics where
  topRated : List TopRatedGroup
  ratingDistribution : List (Int × Nat)
deriving DecidableEq

/-- The distinct strings of a list, one occurrence each (the set of grouping
keys). -/
def dedupKeys : List String → List String
  | [] => []
  | n :: rest =>
      let tail := dedupKeys rest
      if tail.contains n then tail else n :: tail

/-- The ordering of §4.3 on groups as a comparator: descending by mean
rating, tie-break by descending count, then by food name ascending. -/
def groupBefore (a b : TopRatedGroup) : Bool :=
  decide (b.avgRating < a.avgRating)
    || (a.avgRating == b.avgRating
        && (decide (b.count < a.count)
            || (a.count == b.count && decide (a.foodName ≤ b.foodName))))

/-- Modelled from the spec: `computeAnalytics` (§4.3) of the Django backend,
absent from src/, applied to an already-filtered feedback set.  Entries with
a food reference are grouped by the referenced food item's name; each group
gets the arithmetic mean of its ratings and its entry count; groups are
sorted descending by mean, tie-broken by descending count then ascending
name, and truncated to the top 5.  `ratingDistribution` counts all entries
(also those with no food reference) per rating value 1 through 5, with
explicit zero buckets. -/
def computeAnalytics (entries : List FeedbackEntry) : Analytics :=
  let withFood := entries.filterMap fun e => e.food_name.map fun n => (n, e.rating)
  let names := dedupKeys (withFood.map Prod.fst)
  let groups := names.map fun n =>
    let ratings := (withFood.filter fun p => p.1 == n).map Prod.snd
    { foodName := n,
      avgRating := (ratings.sum : ℚ) / (ratings.length : ℚ),
      count := ratings.length : TopRatedGroup }
  { topRated := (sortBy groupBefore groups).take 5,
    ratingDistribution :=
      [1, 2, 3, 4, 5].map fun r => (r, (entries.filter fun e => e.rating == r).length) }

/-- The feedback set of the spec's worked example (§8): three entries rated
5, 5 and 3, all referencing the food item `"Rice"`. -/
def riceEntries : List FeedbackEntry :=
  [ { student_name := "student", food_name := some "Rice", rating := 5,
      message := "very good" },
    { student_name := "student", food_name := some "Rice", rating := 5,
      message := "tasty" },
    { student_name := "student", food_name := some "Rice", rating := 3,
      message := "okay" } ]

end Backend

/-! Helper lemmas about `insertBy` and `sortBy`: the output is a permutation
of the input, and it is pairwise ordered whenever the comparator is
transitive and total. -/

theorem insertBy_perm {α : Type} (le : α → α → Bool) (x : α) (l : List α) :
    List.Perm (insertBy le x l) (x :: l) := by
  induction l with
  | nil => simp [insertBy]
  | cons y ys ih =>
    by_cases hc : le x y
    · simp [insertBy, hc]
    · simp only [insertBy, if_neg hc]
      exact (List.Perm.cons y ih).trans (List.Perm.swap x y ys)

theorem sortBy_perm {α : Type} (le : α → α → Bool) (l : List α) :
    List.Perm (sortBy le l) l := by
  induction l with
  | nil => simp [sortBy]
  | cons x xs ih =>
    exact (insertBy_perm le x (sortBy le xs)).trans (List.Perm.cons x ih)

theorem insertBy_pairwise_of {α : Type} (le : α → α → Bool)
    (htrans : ∀ a b c, le a b = true → le b c = true → le a c = true)
    (htot : ∀ a b, le a b = true ∨ le b a = true) (x : α) (l : List α)
    (h : l.Pairwise fun a b => le a b = true) :
    (insertBy le x l).Pairwise fun a b => le a b = true := by
  induction l with
  | nil => simp [insertBy]
  | cons y ys ih =>
    rcases List.pairwise_cons.mp h with ⟨hy, hys⟩
    by_cases hc : le x y
    · simp only [insertBy, if_pos hc]
      refine List.pairwise_cons.mpr ⟨?_, h⟩
      intro z hz
      rcases List.mem_cons.mp hz with h1 | h1
      · exact h1 ▸ hc
      · exact htrans x y z hc (hy z h1)
    · simp only [insertBy, if_neg hc]
      refine List.pairwise_cons.mpr ⟨?_, ih hys⟩
      intro z hz
      have hmem : z = x ∨ z ∈ ys :=
        List.mem_cons.mp ((insertBy_perm le x ys).mem_iff.mp hz)
      rcases hmem with h1 | h1
      · subst h1
        rcases htot y z with h2 | h2
        · exact h2
        · exact absurd h2 (by simpa using hc)
      · exact hy z h1

theorem sortBy_pairwise_of {α : Type} (le : α → α → Bool)
    (htrans : ∀ a b c, le a b = true → le b c = true → le a c = true)
    (htot : ∀ a b, le a b = true ∨ le b a = true) (l : List α) :
    (sortBy le l).Pairwise fun a b => le a b = true := by
  induction l with
  | nil => simp [sortBy]
  | cons x xs ih => exact insertBy_pairwise_of le htrans htot x (sortBy le xs) ih

/-- With an empty search term, `filteredItems` reduces to a pure category
filter by exact string equality (provided the dropdown is not the `"All"`
sentinel). -/
theorem filteredItems_empty_search (items : List Inv.FoodItem) (c : String)
    (hc : c ≠ "All") :
    Inv.filteredItems items "" c = items.filter fun item => item.category == c := by
  have h1 : (c == "All") = false := beq_eq_false_iff_ne.mpr hc
  simp only [Inv.filteredItems]
  apply List.filter_congr
  intro item _
  simp [h1, jsTrim, jsToLower]

/-- C1 counterexample: the blanket claim that filtering by category is
case-sensitive — so that an item stored with category `"Lunch"` is never
returned for `"lunch"` — is false on the code.  The student view's lunch
menu (`todayMenus`, App.tsx lines 800-805) buckets by lower-cased category,
so the concrete item stored with category `"Lunch"` is returned in the
lunch menu although its category differs from `"lunch"` case-sensitively. -/
theorem todayMenus_lunch_case_insensitive_cex :
    (Cfms.todayMenus [Cfms.lunchCasedItem]).lunch = [Cfms.lunchCasedItem]
    ∧ Cfms.lunchCasedItem.category ≠ "lunch" := by
  decide

/-- C1 amended: the category-parameter filter (`filteredItems` with no
search term and a filter string `c` other than the no-filter sentinel
`"All"`) keeps exactly the items whose `category` equals `c` by
case-sensitive string equality — so there an item stored with category
`"Lunch"` is never returned for the filter `"lunch"`; the student menu
bucketing (`todayMenus`), by contrast, matches category case-insensitively,
and its lunch menu holds exactly the items whose lower-cased category is
`"lunch"`, among them every item stored as `"Lunch"`. -/
theorem category_filter_exact_menus_insensitive (items : List Inv.FoodItem)
    (c : String) (hc : c ≠ "All") (citems : List Cfms.FoodItem) :
    (Inv.filteredItems items "" c = (items.filter fun item => item.category == c)
      ∧ ∀ item ∈ items, item.category = "Lunch" →
          item ∉ Inv.filteredItems items "" "lunch")
    ∧ ((Cfms.todayMenus citems).lunch
        = (citems.filter fun item => jsToLower item.category == "lunch")
      ∧ ∀ item ∈ citems, item.category = "Lunch" →
          item ∈ (Cfms.todayMenus citems).lunch) := by
  refine ⟨⟨filteredItems_empty_search items c hc, ?_⟩, rfl, ?_⟩
  · intro item _ hcat hfil
    rw [filteredItems_empty_search items "lunch" (by decide)] at hfil
    have h2 := List.of_mem_filter hfil
    rw [hcat] at h2
    exact absurd h2 (by decide)
  · intro item hmem hcat
    exact List.mem_filter.mpr ⟨hmem, by rw [hcat]; decide⟩

/-- C1 witness: at the concrete filter `"lunch"`, the dropdown filter keeps
exactly the case-sensitively matching items, while the lunch menu over a
store holding the `"Lunch"`-cased item is the case-insensitive filter. -/
theorem category_filter_exact_menus_insensitive_witness :
    ("lunch" ≠ "All")
    ∧ Inv.filteredItems [Inv.riceLunchItem] "" "lunch"
        = ([Inv.riceLunchItem].filter fun item => item.category == "lunch")
    ∧ (Cfms.todayMenus [Cfms.lunchCasedItem]).lunch
        = ([Cfms.lunchCasedItem].filter fun item => jsToLower item.category == "lunch") :=
  ⟨by decide,
    (category_filter_exact_menus_insensitive [Inv.riceLunchItem] "lunch"
      (by decide) [Cfms.lunchCasedItem]).1.1,
    (category_filter_exact_menus_insensitive [Inv.riceLunchItem] "lunch"
      (by decide) [Cfms.lunchCasedItem]).2.1⟩

/-- C3 counterexample: the claim that the search filter keeps exactly the
items whose lower-cased name contains the lower-cased query is false on the
code.  The concrete item named `"Rice"` with category `"lunch"` is retained
by the search query `"lunch"` although its lower-cased name does not contain
that query: `filteredItems` also matches the query against the item's
category. -/
theorem filteredItems_search_name_only_cex :
    Inv.filteredItems [Inv.riceLunchItem] "lunch" "All" = [Inv.riceLunchItem]
    ∧ jsIncludes (jsToLower Inv.riceLunchItem.name) (jsToLower (jsTrim "lunch")) = false := by
  decide

/-- C3 amended: for every item list and every search term, the search filter
(with the category dropdown at `"All"`) retains exactly the items whose
lower-cased name or lower-cased category contains the trimmed, lower-cased
query as a substring (an empty query retains everything). -/
theorem filteredItems_search_name_or_category (items : List Inv.FoodItem)
    (searchTerm : String) :
    Inv.filteredItems items searchTerm "All"
      = items.filter (Inv.searchMatches searchTerm) := by
  simp only [Inv.filteredItems, Inv.searchMatches]
  apply List.filter_congr
  intro item _
  simp [Inv.searchMatches]

/-- C4: for every parse of creation timestamps and every loaded item list,
the history view presents a permutation of the items (each item exactly as
often as it was loaded, so exactly once for a duplicate-free load) sorted in
descending order of creation time, newest first. -/
theorem sortedHistory_newest_first (getTime : String → Int)
    (items : List Cfms.FoodItem) :
    List.Perm (Cfms.sortedHistory getTime items) items
    ∧ (Cfms.sortedHistory getTime items).Pairwise
        (fun a b => getTime b.created_at ≤ getTime a.created_at) := by
  constructor
  · exact sortBy_perm _ items
  · have h := sortBy_pairwise_of
      (fun a b : Cfms.FoodItem => decide (getTime b.created_at ≤ getTime a.created_at))
      (by
        intro a b c hab hbc
        simp only [decide_eq_true_eq] at hab hbc ⊢
        exact le_trans hbc hab)
      (by
        intro a b
        simp only [decide_eq_true_eq]
        exact le_total _ _)
      items
    exact h.imp fun hab => of_decide_eq_true hab

/-- C2: on the spec's worked example (three feedback entries rated 5, 5 and 3
all referencing `"Rice"`), the modelled `computeAnalytics` yields one
top-rated group with mean rating 13/3 and count 3, and the rating
distribution carries every rating value 1 through 5, the empty ones as
explicit zero buckets: 1 ↦ 0, 2 ↦ 0, 3 ↦ 1, 4 ↦ 0, 5 ↦ 2. -/
theorem computeAnalytics_rice_example :
    Backend.computeAnalytics Backend.riceEntries =
      { topRated := [{ foodName := "Rice", avgRating := 13/3, count := 3 }],
        ratingDistribution := [(1, 0), (2, 0), (3, 1), (4, 0), (5, 2)] } := by
  simp only [Backend.computeAnalytics, Backend.riceEntries, Backend.dedupKeys,
    sortBy, insertBy, Backend.groupBefore, List.filterMap_cons, List.filterMap_nil,
    Option.map_some', List.map_cons, List.map_nil, List.filter_cons, List.filter_nil,
    List.contains_nil, List.contains_cons, List.sum_cons, List.sum_nil,
    List.length_cons, List.length_nil, List.take]
  norm_num

/-- C5: for every store, session user, message and optional food reference,
a rating outside the integer range [1,5] makes the modelled `createFeedback`
fail with a `ValidationError`, so no feedback entry is created (the feedback
table is only returned, extended, on the `Except.ok` path). -/
theorem createFeedback_rejects_out_of_range_rating
    (storedItems : List Backend.FoodItem)
    (storedFeedback : List Backend.FeedbackEntry) (user message : String)
    (rating : Int) (foodItemId : Option Int) (h : rating < 1 ∨ 5 < rating) :
    ∃ field, Backend.createFeedback storedItems storedFeedback user message
      rating foodItemId = .error (.validationError field) := by
  by_cases hm : message.length < 3
  · exact ⟨"message", by simp [Backend.createFeedback, hm]⟩
  · refine ⟨"rating", ?_⟩
    have hr : (rating < 1 || 5 < rating) = true := by
      rcases h with h | h <;> simp [h]
    simp [Backend.createFeedback, hm, hr]

/-- C5 witness: the concrete rating 6 is rejected with a `ValidationError`. -/
theorem createFeedback_rejects_out_of_range_rating_witness :
    ((6 : Int) < 1 ∨ 5 < (6 : Int))
    ∧ ∃ field, Backend.createFeedback [] [] "student" "good food" 6 none
        = .error (.validationError field) :=
  ⟨Or.inr (by norm_num),
    createFeedback_rejects_out_of_range_rating [] [] "student" "good food" 6 none
      (Or.inr (by norm_num))⟩

/-- C6: the feedback request body is a function of the message, rating and
food-item fields of the state alone — two states that agree on those three
fields (whatever their usernames, current users or any other field) produce
identical payloads, and the `FeedbackPayload` type carries no
student-identity field, so the attributed student name can only come from
the server-side session. -/
theorem feedbackPayload_independent_of_identity (s1 s2 : Cfms.CfmsState)
    (hm : s1.feedbackMessage = s2.feedbackMessage)
    (hr : s1.feedbackRating = s2.feedbackRating)
    (hf : s1.feedbackFoodId = s2.feedbackFoodId) :
    Cfms.feedbackPayload s1 = Cfms.feedbackPayload s2 := by
  simp [Cfms.feedbackPayload, hm, hr, hf]

/-- C6 witness: two sessions logged in as `alice` and as `bob` submitting the
same message, rating and food item send byte-identical payloads. -/
theorem feedbackPayload_independent_of_identity_witness :
    Cfms.feedbackPayload
        { Cfms.initialState with
            currentUser := "alice", username := "alice",
            feedbackMessage := "More rice please", feedbackRating := "4",
            feedbackFoodId := "2" }
      = Cfms.feedbackPayload
        { Cfms.initialState with
            currentUser := "bob", username := "bob",
            feedbackMessage := "More rice please", feedbackRating := "4",
            feedbackFoodId := "2" } :=
  feedbackPayload_independent_of_identity _ _ rfl rfl rfl

/-- C7: logout issues no HTTP request (so the stored food items and feedback
entries on the server are untouched), clears exactly the client session state
— role, current user, login error and feedback status — and leaves every
other field of the component state, the loaded item list and the loaded
feedback list among them, unchanged. -/
theorem handleLogout_clears_only_session (s : Cfms.CfmsState) :
    (Cfms.handleLogout s).2 = []
    ∧ (Cfms.handleLogout s).1.role = none
    ∧ (Cfms.handleLogout s).1.currentUser = ""
    ∧ (Cfms.handleLogout s).1.loginError = ""
    ∧ (Cfms.handleLogout s).1.feedbackStatus = ""
    ∧ (Cfms.handleLogout s).1.items = s.items
    ∧ (Cfms.handleLogout s).1.feedbacks = s.feedbacks
    ∧ (Cfms.handleLogout s).1.analytics = s.analytics
    ∧ (Cfms.handleLogout s).1.name = s.name
    ∧ (Cfms.handleLogout s).1.category = s.category
    ∧ (Cfms.handleLogout s).1.quantity = s.quantity
    ∧ (Cfms.handleLogout s).1.imageFile = s.imageFile
    ∧ (Cfms.handleLogout s).1.feedbackMessage = s.feedbackMessage
    ∧ (Cfms.handleLogout s).1.feedbackRating = s.feedbackRating
    ∧ (Cfms.handleLogout s).1.feedbackFoodId = s.feedbackFoodId
    ∧ (Cfms.handleLogout s).1.filterSearch = s.filterSearch
    ∧ (Cfms.handleLogout s).1.filterCategory = s.filterCategory
    ∧ (Cfms.handleLogout s).1.filterFrom = s.filterFrom
    ∧ (Cfms.handleLogout s).1.filterTo = s.filterTo
    ∧ (Cfms.handleLogout s).1.loading = s.loading
    ∧ (Cfms.handleLogout s).1.submitting = s.submitting
    ∧ (Cfms.handleLogout s).1.feedbackSubmitting = s.feedbackSubmitting
    ∧ (Cfms.handleLogout s).1.error = s.error
    ∧ (Cfms.handleLogout s).1.lastUpdated = s.lastUpdated
    ∧ (Cfms.handleLogout s).1.username = s.username
    ∧ (Cfms.handleLogout s).1.password = s.password
    ∧ (Cfms.handleLogout s).1.loginLoading = s.loginLoading := by
  simp [Cfms.handleLogout]

/-- C8: from the logged-out state every login attempt leaves the session role
`none` or sets it to exactly `"student"` or `"admin"`; an HTTP-ok response
whose body is missing, malformed or carries any other role value establishes
no session (the role stays `none`) and is surfaced as the error
`Invalid login response from backend.`. -/
theorem handleLogin_role_closed (s : Cfms.CfmsState) (o : Cfms.LoginOutcome)
    (h : s.role = none) :
    ((Cfms.handleLogin s o).role = none
      ∨ (Cfms.handleLogin s o).role = some "student"
      ∨ (Cfms.handleLogin s o).role = some "admin")
    ∧ (∀ (status : Nat) (body : Option Cfms.LoginData),
        body.bind Cfms.LoginData.role ≠ some "student" →
        body.bind Cfms.LoginData.role ≠ some "admin" →
        (Cfms.handleLogin s (.response true status body)).role = none
        ∧ (Cfms.handleLogin s (.response true status body)).loginError
            = "Invalid login response from backend.") := by
  constructor
  · cases o with
    | failure msg => left; simp [Cfms.handleLogin, h]
    | response ok status body =>
      cases ok with
      | false => left; simp [Cfms.handleLogin, h]
      | true =>
        cases hb : body.bind Cfms.LoginData.role with
        | none => left; simp [Cfms.handleLogin, hb, h]
        | some r =>
          by_cases hr : (r == "student" || r == "admin") = true
          · rcases Bool.or_eq_true_iff.mp hr with h1 | h1
            · right; left
              have : r = "student" := by simpa using h1
              subst this
              simp [Cfms.handleLogin, hb]
            · right; right
              have : r = "admin" := by simpa using h1
              subst this
              simp [Cfms.handleLogin, hb]
          · left
            simp [Cfms.handleLogin, hb, hr, h]
  · intro status body h1 h2
    cases hb : body.bind Cfms.LoginData.role with
    | none => constructor <;> simp [Cfms.handleLogin, hb, h]
    | some r =>
      have hr : (r == "student" || r == "admin") = false := by
        rw [hb] at h1 h2
        simp only [Bool.or_eq_false_iff, beq_eq_false_iff_ne]
        exact ⟨fun hs => h1 (by rw [hs]), fun ha => h2 (by rw [ha])⟩
      constructor <;> simp [Cfms.handleLogin, hb, hr, h]

/-- C8 witness: an ok response claiming the role `"chef"` is rejected — from
the initial state the role stays `none` and the invalid-response error is
shown. -/
theorem handleLogin_role_closed_witness :
    (Cfms.handleLogin Cfms.initialState
        (.response true 200 (some ⟨some "chef", some "mallory", none⟩))).role = none
    ∧ (Cfms.handleLogin Cfms.initialState
        (.response true 200 (some ⟨some "chef", some "mallory", none⟩))).loginError
        = "Invalid login response from backend." :=
  (handleLogin_role_closed Cfms.initialState
      (.response true 200 (some ⟨some "chef", some "mallory", none⟩)) rfl).2
    200 (some ⟨some "chef", some "mallory", none⟩) (by decide) (by decide)

/-- C9: when the single `fetch` of `loadItems` or of `handleSubmit` rejects
with a transport-level `TypeError`, the inventory client surfaces the fixed
generic retry-prompt message (no server-provided text exists on that path),
and both handlers issue exactly one request on every outcome — there is no
automatic retry. -/
theorem transport_failure_generic_message (s : Inv.AppState) (now : String) :
    ((Inv.loadItems s .networkFailure now).1.error = Inv.backendUnreachableMsg
      ∧ (Inv.loadItems s .networkFailure now).2 = 1)
    ∧ ((Inv.handleSubmit s .networkFailure now).1.error = Inv.backendUnreachableMsg
      ∧ (Inv.handleSubmit s .networkFailure now).2 = 1)
    ∧ (∀ outcome, (Inv.loadItems s outcome now).2 = 1)
    ∧ (∀ outcome, (Inv.handleSubmit s outcome now).2 = 1)
    ∧ Inv.backendUnreachableMsg
        = "Cannot reach backend API. Start Django server on http://localhost:8000." := by
  refine ⟨⟨rfl, rfl⟩, ⟨rfl, rfl⟩, fun outcome => ?_, fun outcome => ?_, rfl⟩
  · cases outcome <;> rfl
  · cases outcome <;> rfl

/-- C10: `readJsonSafely` is a total function of the body text and the
parser's verdict — it returns `none` on the empty body, the parsed value on
a non-empty body the parser accepts, and `none` on a body the parser throws
on, so callers observe empty and malformed bodies identically (and, being a
total Lean function, it never throws). -/
theorem readJsonSafely_behaviour (parse : String → Except String Cfms.Json)
    (text : String) :
    Cfms.readJsonSafely parse "" = none
    ∧ (∀ v, text ≠ "" → parse text = .ok v →
        Cfms.readJsonSafely parse text = some v)
    ∧ (∀ e, parse text = .error e → Cfms.readJsonSafely parse text = none)
    ∧ (∀ e, parse text = .error e →
        Cfms.readJsonSafely parse text = Cfms.readJsonSafely parse "") := by
  refine ⟨by simp [Cfms.readJsonSafely], ?_, ?_, ?_⟩
  · intro v hne hok
    simp [Cfms.readJsonSafely, hne, hok]
  · intro e herr
    by_cases ht : text = ""
    · simp [Cfms.readJsonSafely, ht]
    · simp [Cfms.readJsonSafely, ht, herr]
  · intro e herr
    by_cases ht : text = ""
    · simp [Cfms.readJsonSafely, ht]
    · simp [Cfms.readJsonSafely, ht, herr]
